import Mathlib

/-!
Verification of the QR-code attendance redemption component of the
attendance application (src/database.py, src/setup_database.py,
src/teacher_ui.py).

The relational store is embedded shallowly: each table is a list of rows,
time is a natural number, and the store functions of `database.py`
(`create_qr_session`, `redeem_qr_code`, `mark_single_student_present`,
`deactivate_qr_session`) become Lean functions from a store to a result
paired with the next store.  A transaction that rolls back returns the
original store; only a commit returns the modified store.  Unexpected
store failures (exceptions raised by the database driver) are modelled by
explicit fault flags: a set flag means the corresponding statement raises,
and the embedding follows the source's try/except structure on that path.
-/

namespace AttendanceApp

/-- A row of the `attendance_sessions` table (setup_database.py):
id, section_id, session_uuid (UNIQUE), expires_at, is_active. -/
structure SessionRow where
  id : Nat
  section_id : Nat
  session_uuid : String
  expires_at : Nat
  is_active : Bool
deriving Repr, DecidableEq

/-- A row of the `qr_scans` table: UNIQUE(session_id, student_id). -/
structure ScanRow where
  session_id : Nat
  student_id : Nat
deriving Repr, DecidableEq

/-- A row of the `attendance` table, unique on (student_id, section_id, date). -/
structure AttendanceRow where
  student_id : Nat
  section_id : Nat
  semester_id : Nat
  date : Nat
  status : String
deriving Repr, DecidableEq

/-- The relational store: the three tables the QR component touches. -/
structure Store where
  sessions : List SessionRow
  qr_scans : List ScanRow
  attendance : List AttendanceRow
deriving Repr, DecidableEq

/-- Fault flags for the store statements executed by `redeem_qr_code`:
`lookup` — the SELECT on attendance_sessions raises;
`scanInsert` — the INSERT into qr_scans raises something other than a
uniqueness violation; `mark` — the attendance upsert raises (caught inside
`mark_single_student_present`, which then returns None). -/
structure Faults where
  lookup : Bool
  scanInsert : Bool
  mark : Bool
deriving Repr, DecidableEq

/-- The fault-free store. -/
def noFaults : Faults := { lookup := false, scanInsert := false, mark := false }

/-- Message of the unknown-token outcome (database.py, redeem_qr_code). -/
def invalidTokenMsg : String := "Invalid QR Code. This session does not exist."

/-- Message of the expired-session outcome; carries the expiry timestamp. -/
def expiredMsg (expires_at : Nat) : String :=
  "QR Code has expired. This session ended at " ++ toString expires_at ++ "."

/-- Message of the inactive-session outcome. -/
def inactiveMsg : String := "This attendance session is no longer active."

/-- Message of the already-scanned informational outcome. -/
def alreadyMarkedMsg : String := "Attendance already marked for this session."

/-- Message of the success outcome; carries the date marked. -/
def successMsg (date : Nat) : String :=
  "Attendance successfully marked for **" ++ toString date ++ "**!"

/-- Message returned when `mark_single_student_present` fails. -/
def saveFailedMsg : String := "Failed to save attendance. Please contact your teacher."

/-- Message of the outer exception handler of `redeem_qr_code`. -/
def genericErrorMsg : String := "An unexpected error occurred."

/-- The (student_id, section_id, date) key of the attendance uniqueness
constraint, as a predicate on rows. -/
def attKey (student_id section_id date : Nat) (r : AttendanceRow) : Bool :=
  r.student_id == student_id && r.section_id == section_id && r.date == date

/-- The UPSERT of `mark_single_student_present`:
INSERT ... ON CONFLICT (student_id, section_id, date) DO UPDATE SET
status = 'Present'.  A conflicting row keeps all its fields except status;
otherwise a fresh row is inserted. -/
def upsertAttendance (rows : List AttendanceRow)
    (student_id section_id semester_id date : Nat) : List AttendanceRow :=
  if rows.any (attKey student_id section_id date) then
    rows.map (fun r => if attKey student_id section_id date r then
      { r with status := "Present" } else r)
  else
    rows ++ [{ student_id := student_id, section_id := section_id,
               semester_id := semester_id, date := date, status := "Present" }]

/-- database.py `mark_single_student_present(cursor, student_id, section_id,
semester_id)`: runs the attendance UPSERT on the caller's transaction and
returns the date string, or None when its execute raises (it catches the
exception itself and neither commits nor rolls back). -/
def mark_single_student_present (st : Store)
    (student_id section_id semester_id today : Nat) (fault : Bool) :
    Option Nat × Store :=
  if fault then (none, st)
  else (some today,
    { st with attendance :=
        upsertAttendance st.attendance student_id section_id semester_id today })

/-- database.py `create_qr_session(section_id, duration_minutes=5)`:
deactivates every session of the section, inserts a new active session with
the generated uuid and expires_at = now + duration, commits and returns the
uuid.  The generated uuid and the SERIAL id are passed in as parameters;
if the uuid collides with an existing one the INSERT raises a uniqueness
violation, the except branch rolls the transaction back and returns None. -/
def create_qr_session (st : Store) (section_id duration_minutes : Nat)
    (session_uuid : String) (newId : Nat) (now : Nat) : Option String × Store :=
  if st.sessions.any (fun s => s.session_uuid == session_uuid) then
    (none, st)
  else
    (some session_uuid,
      { st with sessions :=
          (st.sessions.map (fun s => if s.section_id == section_id then
            { s with is_active := false } else s)) ++
          [{ id := newId, section_id := section_id, session_uuid := session_uuid,
             expires_at := now + duration_minutes, is_active := true }] })

/-- database.py `redeem_qr_code(session_uuid, student_id, semester_id)`:
looks the session up by token, rejects unknown tokens, then expired
sessions (now strictly past expires_at), then inactive ones; logs the scan
(a uniqueness conflict on (session_id, student_id) becomes the
informational already-marked outcome), upserts the attendance mark and
commits.  Every non-commit exit rolls the transaction back, and the outer
except maps any unexpected exception to the generic error outcome. -/
def redeem_qr_code (st : Store) (session_uuid : String)
    (student_id semester_id : Nat) (now today : Nat) (f : Faults) :
    (String × String) × Store :=
  if f.lookup then (("error", genericErrorMsg), st)
  else
    match st.sessions.find? (fun s => s.session_uuid == session_uuid) with
    | none => (("error", invalidTokenMsg), st)
    | some s =>
      if now > s.expires_at then (("error", expiredMsg s.expires_at), st)
      else if !s.is_active then (("error", inactiveMsg), st)
      else if f.scanInsert then (("error", genericErrorMsg), st)
      else if st.qr_scans.any (fun r =>
          r.session_id == s.id && r.student_id == student_id) then
        (("info", alreadyMarkedMsg), st)
      else
        match mark_single_student_present
            { st with qr_scans := st.qr_scans ++ [{ session_id := s.id, student_id := student_id }] }
            student_id s.section_id semester_id today f.mark with
        | (none, _) => (("error", saveFailedMsg), st)
        | (some d, st2) => (("success", successMsg d), st2)

/-- database.py `deactivate_qr_session(session_uuid)`: sets is_active to
FALSE on the matching session and commits, returning True; on an exception
it rolls back and returns False. -/
def deactivate_qr_session (st : Store) (session_uuid : String) (fault : Bool) :
    Bool × Store :=
  if fault then (false, st)
  else (true,
    { st with sessions := st.sessions.map (fun s =>
        if s.session_uuid == session_uuid then { s with is_active := false } else s) })

/-- Whether a call to `redeem_qr_code` with fault flags `f` actually hits a
faulting store statement: the lookup fault always fires; the scan-insert
and mark faults fire only when control reaches those statements. -/
def faultOccurred (st : Store) (session_uuid : String) (student_id : Nat)
    (now : Nat) (f : Faults) : Bool :=
  f.lookup ||
  (match st.sessions.find? (fun s => s.session_uuid == session_uuid) with
   | none => false
   | some s =>
     if now > s.expires_at then false
     else if !s.is_active then false
     else f.scanInsert ||
       (!(st.qr_scans.any (fun r =>
           r.session_id == s.id && r.student_id == student_id)) && f.mark))

/-- The empty store. -/
def emptyStore : Store := { sessions := [], qr_scans := [], attendance := [] }

/-- C10: for every input (token, student_id, semester_id), time and fault
combination, redeem_qr_code returns a (status, message) pair whose status
is exactly one of "success", "info" or "error": every internal exception,
store failures included, is mapped to an outcome and none escapes. -/
theorem C10_redeem_status_total (st : Store) (uuid : String)
    (student semester now today : Nat) (f : Faults) :
    (redeem_qr_code st uuid student semester now today f).1.1 = "success" ∨
    (redeem_qr_code st uuid student semester now today f).1.1 = "info" ∨
    (redeem_qr_code st uuid student semester now today f).1.1 = "error" := by
  unfold redeem_qr_code
  repeat' split
  all_goals simp

/-- C7: redeeming a token that identifies no stored session returns the
InvalidToken error outcome and leaves the store unchanged (rollback),
provided the lookup itself does not raise. -/
theorem C7_unknown_token_invalid (st : Store) (uuid : String)
    (student semester now today : Nat) (f : Faults)
    (hl : f.lookup = false)
    (hfind : st.sessions.find? (fun s => s.session_uuid == uuid) = none) :
    redeem_qr_code st uuid student semester now today f =
      (("error", invalidTokenMsg), st) := by
  simp [redeem_qr_code, hl, hfind]

/-- Witness for C7 at a concrete input: the empty store knows no token. -/
theorem C7_unknown_token_invalid_witness :
    redeem_qr_code emptyStore ("tok") 1 1 0 0 noFaults =
      (("error", invalidTokenMsg), emptyStore) :=
  C7_unknown_token_invalid emptyStore ("tok") 1 1 0 0 noFaults rfl rfl

/-- C5: redeeming a known session whose expires_at lies strictly in the
past returns the SessionExpired error carrying the expiry timestamp in its
message, regardless of the is_active flag, and the store is unchanged. -/
theorem C5_expired_session (st : Store) (uuid : String)
    (student semester now today : Nat) (f : Faults) (s : SessionRow)
    (hl : f.lookup = false)
    (hfind : st.sessions.find? (fun x => x.session_uuid == uuid) = some s)
    (hexp : now > s.expires_at) :
    redeem_qr_code st uuid student semester now today f =
      (("error", expiredMsg s.expires_at), st) := by
  simp [redeem_qr_code, hl, hfind, hexp]

/-- Witness for C5 at a concrete input: a still-active session that
expired at time 5, redeemed at time 9. -/
theorem C5_expired_session_witness :
    redeem_qr_code
      { sessions := [{ id := 1, section_id := 2, session_uuid := "tok",
                       expires_at := 5, is_active := true }],
        qr_scans := [], attendance := [] } ("tok") 3 1 9 9 noFaults =
      (("error", expiredMsg 5),
        { sessions := [{ id := 1, section_id := 2, session_uuid := "tok",
                         expires_at := 5, is_active := true }],
          qr_scans := [], attendance := [] }) :=
  C5_expired_session
    { sessions := [{ id := 1, section_id := 2, session_uuid := "tok",
                     expires_at := 5, is_active := true }],
      qr_scans := [], attendance := [] } ("tok") 3 1 9 9 noFaults
    { id := 1, section_id := 2, session_uuid := "tok",
      expires_at := 5, is_active := true }
    rfl (by decide) (by decide)

/-- C8: deactivate_qr_session sets is_active to false on the sessions
matching the token and modifies nothing else; in particular every
qr_scans row and every attendance row is untouched, whether the call
succeeds or its statement raises and rolls back. -/
theorem C8_deactivate_frame (st : Store) (uuid : String) :
    deactivate_qr_session st uuid false =
      (true, { st with sessions := st.sessions.map (fun s =>
        if s.session_uuid == uuid then { s with is_active := false } else s) }) ∧
    ∀ b : Bool,
      (deactivate_qr_session st uuid b).2.qr_scans = st.qr_scans ∧
      (deactivate_qr_session st uuid b).2.attendance = st.attendance := by
  refine ⟨rfl, ?_⟩
  intro b
  cases b <;> simp [deactivate_qr_session]

/-- A store holding one session that is both inactive and expired
(expires_at 5, redeemed at time 10). -/
def inactiveExpiredStore : Store :=
  { sessions := [{ id := 1, section_id := 1, session_uuid := "tok",
                   expires_at := 5, is_active := false }],
    qr_scans := [], attendance := [] }

/-- C6 counterexample: a known session that is inactive AND expired yields
the SessionExpired message, not the SessionInactive one — the expiry check
runs before the is_active check, contradicting the claimed order. -/
theorem C6_counterexample :
    (redeem_qr_code inactiveExpiredStore ("tok") 1 1 10 10 noFaults).1 =
        ("error", expiredMsg 5) ∧
    (redeem_qr_code inactiveExpiredStore ("tok") 1 1 10 10 noFaults).1 ≠
        ("error", inactiveMsg) := by
  constructor
  · rfl
  · decide

/-- C6 amended: a known session with is_active = false yields the
SessionInactive error and an unchanged store provided it is not also
expired (now ≤ expires_at); the expiry check precedes the is_active
check, so an inactive session that is also expired yields SessionExpired
instead. -/
theorem C6_inactive_session (st : Store) (uuid : String)
    (student semester now today : Nat) (f : Faults) (s : SessionRow)
    (hl : f.lookup = false)
    (hfind : st.sessions.find? (fun x => x.session_uuid == uuid) = some s)
    (hact : s.is_active = false)
    (hexp : now ≤ s.expires_at) :
    redeem_qr_code st uuid student semester now today f =
      (("error", inactiveMsg), st) := by
  have hnotgt : ¬ now > s.expires_at := not_lt.mpr hexp
  simp [redeem_qr_code, hl, hfind, hnotgt, hact]

/-- Witness for C6 amended: an inactive, unexpired session at time 3. -/
theorem C6_inactive_session_witness :
    redeem_qr_code inactiveExpiredStore ("tok") 1 1 3 3 noFaults =
      (("error", inactiveMsg), inactiveExpiredStore) :=
  C6_inactive_session inactiveExpiredStore ("tok") 1 1 3 3 noFaults
    { id := 1, section_id := 1, session_uuid := "tok",
      expires_at := 5, is_active := false }
    rfl rfl rfl (by decide)

/-- A store holding one active session whose expires_at is exactly 10. -/
def boundaryStore : Store :=
  { sessions := [{ id := 1, section_id := 1, session_uuid := "tok",
                   expires_at := 10, is_active := true }],
    qr_scans := [], attendance := [] }

/-- C3 counterexample: a redemption performed exactly at now = expires_at
returns Success — the boundary case is accepted, not rejected, because the
code tests now > expires_at strictly. -/
theorem C3_counterexample :
    (redeem_qr_code boundaryStore ("tok") 1 1 10 10 noFaults).1.1 = "success" ∧
    ¬ (10 < 10) := by
  constructor
  · rfl
  · decide

/-- C3 amended: every redemption that returns Success saw a looked-up
session with is_active = true and now ≤ expires_at; a redemption at
now > expires_at never returns Success, but the boundary now = expires_at
is accepted. -/
theorem C3_success_requires_active_unexpired (st : Store) (uuid : String)
    (student semester now today : Nat) (f : Faults)
    (hs : (redeem_qr_code st uuid student semester now today f).1.1 = "success") :
    ∃ s, st.sessions.find? (fun x => x.session_uuid == uuid) = some s ∧
      s.is_active = true ∧ now ≤ s.expires_at := by
  unfold redeem_qr_code at hs
  split at hs
  · simp at hs
  · split at hs
    · simp at hs
    · next s hfind =>
      split at hs
      · simp at hs
      · split at hs
        · simp at hs
        · next hexp hact =>
          refine ⟨s, hfind, ?_, ?_⟩
          · revert hact
            cases s.is_active <;> simp
          · exact le_of_not_lt hexp

/-- Witness for C3 amended: the boundary redemption at now = expires_at
succeeds, and the theorem recovers is_active = true and now ≤ expires_at
for the stored session. -/
theorem C3_success_requires_active_unexpired_witness :
    ∃ s, boundaryStore.sessions.find? (fun x => x.session_uuid == "tok") = some s ∧
      s.is_active = true ∧ 10 ≤ s.expires_at :=
  C3_success_requires_active_unexpired boundaryStore ("tok") 1 1 10 10 noFaults rfl

/-- C9 counterexample: create_qr_session called with duration 100 — far
outside the 1–15 range — is not rejected: it returns the token and writes
a session row with expires_at = now + 100 into the store. -/
theorem C9_counterexample :
    (create_qr_session emptyStore 7 100 ("tok") 1 0).1 = some ("tok") ∧
    (create_qr_session emptyStore 7 100 ("tok") 1 0).2 =
      { sessions := [{ id := 1, section_id := 7, session_uuid := "tok",
                       expires_at := 100, is_active := true }],
        qr_scans := [], attendance := [] } ∧
    ¬ (100 ≤ 15) := by
  refine ⟨rfl, rfl, by decide⟩

/-- C9 amended: the issuance component performs no input validation —
create_qr_session proceeds to write the store for every section identifier
and every duration value, out-of-range ones included, recording
expires_at = now + duration; durations are kept in 1–15 (default 5) only
by the teacher-UI slider, not by any rejection before the store call. -/
theorem C9_no_input_validation (st : Store) (section_id duration : Nat)
    (uuid : String) (newId now : Nat)
    (hfresh : st.sessions.any (fun s => s.session_uuid == uuid) = false) :
    create_qr_session st section_id duration uuid newId now =
      (some uuid,
        { st with sessions :=
            (st.sessions.map (fun s => if s.section_id == section_id then
              { s with is_active := false } else s)) ++
            [{ id := newId, section_id := section_id, session_uuid := uuid,
               expires_at := now + duration, is_active := true }] }) := by
  simp [create_qr_session, hfresh]

/-- Witness for C9 amended: an out-of-range duration of 100 minutes is
written to the store unvalidated. -/
theorem C9_no_input_validation_witness :
    create_qr_session emptyStore 7 100 ("tok") 1 0 =
      (some ("tok"),
        { emptyStore with sessions :=
            (emptyStore.sessions.map (fun s => if s.section_id == 7 then
              { s with is_active := false } else s)) ++
            [{ id := 1, section_id := 7, session_uuid := "tok",
               expires_at := 0 + 100, is_active := true }] }) :=
  C9_no_input_validation emptyStore 7 100 ("tok") 1 0 rfl

/-- Deactivating a section's sessions leaves no active session of that
section. -/
theorem countP_active_deactivated (l : List SessionRow) (section_id : Nat) :
    (l.map (fun s => if s.section_id == section_id then
      { s with is_active := false } else s)).countP
      (fun s => s.section_id == section_id && s.is_active) = 0 := by
  rw [List.countP_eq_zero]
  intro a ha
  rcases List.mem_map.mp ha with ⟨b, _, hb⟩
  by_cases h : b.section_id == section_id
  · rw [if_pos h] at hb
    subst hb
    simp_all
  · rw [if_neg h] at hb
    subst hb
    simp_all

/-- Deactivating one section's sessions does not change the number of
active sessions of any other section. -/
theorem countP_active_other_sections (l : List SessionRow) (section_id sec : Nat)
    (hne : sec ≠ section_id) :
    (l.map (fun s => if s.section_id == section_id then
      { s with is_active := false } else s)).countP
      (fun s => s.section_id == sec && s.is_active) =
    l.countP (fun s => s.section_id == sec && s.is_active) := by
  rw [List.countP_map]
  apply List.countP_congr
  intro a _
  by_cases h : a.section_id = section_id
  · have h2 : (a.section_id == sec) = false := by
      simp only [beq_eq_false_iff_ne, h]
      exact Ne.symm hne
    simp [Function.comp, h, h2]
    intro hc
    exact absurd hc (Ne.symm hne)
  · simp [Function.comp, h]

/-- C4: issuing a session for a section with a fresh token returns that
token, and the new store consists of the old sessions with every session
of the section deactivated, followed by exactly one new row with
is_active = true, the fresh token and expires_at = now + duration; as a
result the section has exactly one active session, and the count of
active sessions of every other section is unchanged (so at most one
active session per section is preserved). -/
theorem C4_single_active_session (st : Store) (section_id duration : Nat)
    (uuid : String) (newId now : Nat)
    (hfresh : st.sessions.any (fun s => s.session_uuid == uuid) = false) :
    ∃ st', create_qr_session st section_id duration uuid newId now = (some uuid, st') ∧
      st'.sessions =
        (st.sessions.map (fun s => if s.section_id == section_id then
          { s with is_active := false } else s)) ++
        [{ id := newId, section_id := section_id, session_uuid := uuid,
           expires_at := now + duration, is_active := true }] ∧
      st'.sessions.countP (fun s => s.section_id == section_id && s.is_active) = 1 ∧
      ∀ sec, sec ≠ section_id →
        st'.sessions.countP (fun s => s.section_id == sec && s.is_active) =
        st.sessions.countP (fun s => s.section_id == sec && s.is_active) := by
  refine ⟨{ st with sessions :=
      (st.sessions.map (fun s => if s.section_id == section_id then
        { s with is_active := false } else s)) ++
      [{ id := newId, section_id := section_id, session_uuid := uuid,
         expires_at := now + duration, is_active := true }] }, ?_, rfl, ?_, ?_⟩
  · simp [create_qr_session, hfresh]
  · rw [List.countP_append, countP_active_deactivated]
    simp
  · intro sec hne
    rw [List.countP_append, countP_active_other_sections st.sessions section_id sec hne]
    have h2 : (section_id == sec) = false := by
      simp only [beq_eq_false_iff_ne]
      exact Ne.symm hne
    simp [h2]

/-- Witness for C4: issuing a 5-minute session for section 2 at time 100
into a store that already holds an active session of section 2 and one of
section 3. -/
theorem C4_single_active_session_witness :
    ∃ st', create_qr_session
        { sessions := [{ id := 1, section_id := 2, session_uuid := "old",
                         expires_at := 50, is_active := true },
                       { id := 2, section_id := 3, session_uuid := "other",
                         expires_at := 60, is_active := true }],
          qr_scans := [], attendance := [] } 2 5 ("fresh") 3 100 = (some ("fresh"), st') ∧
      st'.sessions =
        ([{ id := 1, section_id := 2, session_uuid := "old",
            expires_at := 50, is_active := true },
          { id := 2, section_id := 3, session_uuid := "other",
            expires_at := 60, is_active := true }].map
          (fun s => if s.section_id == 2 then { s with is_active := false } else s)) ++
        [{ id := 3, section_id := 2, session_uuid := "fresh",
           expires_at := 100 + 5, is_active := true }] ∧
      st'.sessions.countP (fun s => s.section_id == 2 && s.is_active) = 1 ∧
      ∀ sec, sec ≠ 2 →
        st'.sessions.countP (fun s => s.section_id == sec && s.is_active) =
        ([{ id := 1, section_id := 2, session_uuid := "old",
            expires_at := 50, is_active := true },
          { id := 2, section_id := 3, session_uuid := "other",
            expires_at := 60, is_active := true }] : List SessionRow).countP
          (fun s => s.section_id == sec && s.is_active) :=
  C4_single_active_session
    { sessions := [{ id := 1, section_id := 2, session_uuid := "old",
                     expires_at := 50, is_active := true },
                   { id := 2, section_id := 3, session_uuid := "other",
                     expires_at := 60, is_active := true }],
      qr_scans := [], attendance := [] } 2 5 ("fresh") 3 100 (by decide)

/-- The attendance key ignores the status field, so overwriting status
keeps the key. -/
theorem attKey_status_update (student_id section_id date : Nat) (r : AttendanceRow) :
    attKey student_id section_id date { r with status := "Present" } =
    attKey student_id section_id date r := rfl

/-- The conflict-update arm of the UPSERT turns every key-matching row
into a Present row, so marked-Present rows for the key are counted exactly
by the key-matching rows. -/
theorem countP_present_upsert_map (rows : List AttendanceRow)
    (student_id section_id date : Nat) :
    (rows.map (fun r => if attKey student_id section_id date r then
      { r with status := "Present" } else r)).countP
      (fun r => attKey student_id section_id date r && (r.status == "Present")) =
    rows.countP (attKey student_id section_id date) := by
  rw [List.countP_map]
  apply List.countP_congr
  intro a _
  by_cases h : attKey student_id section_id date a = true
  · simp [Function.comp, h, attKey_status_update]
  · simp [Function.comp, h, attKey_status_update]

/-- After the UPSERT, a store that satisfied the attendance uniqueness
constraint for the key holds exactly one Present row for that key. -/
theorem countP_upsertAttendance (rows : List AttendanceRow)
    (student_id section_id semester_id date : Nat)
    (h : rows.countP (attKey student_id section_id date) ≤ 1) :
    (upsertAttendance rows student_id section_id semester_id date).countP
      (fun r => attKey student_id section_id date r && (r.status == "Present")) = 1 := by
  unfold upsertAttendance
  by_cases hany : rows.any (attKey student_id section_id date) = true
  · rw [if_pos hany, countP_present_upsert_map]
    have hpos : 0 < rows.countP (attKey student_id section_id date) := by
      rw [List.countP_pos_iff]
      exact List.any_eq_true.mp hany
    omega
  · rw [if_neg hany, List.countP_append]
    have hall : ∀ a ∈ rows, attKey student_id section_id date a = false := by
      intro a ha
      rcases Bool.eq_false_or_eq_true (attKey student_id section_id date a) with ht | hf
      · exact absurd (List.any_eq_true.mpr ⟨a, ha, ht⟩) hany
      · exact hf
    have h0 : rows.countP
        (fun r => attKey student_id section_id date r && (r.status == "Present")) = 0 := by
      rw [List.countP_eq_zero]
      intro a ha
      simp [hall a ha]
    rw [h0]
    simp [attKey]

/-- C2: redeeming a known, active, unexpired session for the first time
succeeds and leaves exactly one Present attendance mark for
(student, section, today); redeeming the same token again with the same
student (still before expiry) returns the informational AlreadyMarked
outcome and leaves the store — the mark included — exactly as it was. -/
theorem C2_redeem_idempotent (st : Store) (uuid : String)
    (student semester now now2 today : Nat) (s : SessionRow)
    (hfind : st.sessions.find? (fun x => x.session_uuid == uuid) = some s)
    (hact : s.is_active = true)
    (hexp : now ≤ s.expires_at)
    (hexp2 : now2 ≤ s.expires_at)
    (hscan : st.qr_scans.any (fun r =>
      r.session_id == s.id && r.student_id == student) = false)
    (huniq : st.attendance.countP (attKey student s.section_id today) ≤ 1) :
    ∃ st1,
      redeem_qr_code st uuid student semester now today noFaults =
        (("success", successMsg today), st1) ∧
      st1.attendance.countP
        (fun r => attKey student s.section_id today r && (r.status == "Present")) = 1 ∧
      redeem_qr_code st1 uuid student semester now2 today noFaults =
        (("info", alreadyMarkedMsg), st1) := by
  have hngt : ¬ now > s.expires_at := not_lt.mpr hexp
  have hngt2 : ¬ now2 > s.expires_at := not_lt.mpr hexp2
  refine ⟨{ st with
      qr_scans := st.qr_scans ++ [{ session_id := s.id, student_id := student }],
      attendance := upsertAttendance st.attendance student s.section_id semester today },
    ?_, ?_, ?_⟩
  · simp [redeem_qr_code, noFaults, hfind, hngt, hact, hscan, mark_single_student_present]
  · exact countP_upsertAttendance st.attendance student s.section_id semester today huniq
  · simp [redeem_qr_code, noFaults, hfind, hngt2, hact]

/-- Witness for C2: a fresh active session of section 2 expiring at 10,
student 5 scanning at times 3 and 4. -/
theorem C2_redeem_idempotent_witness :
    ∃ st1,
      redeem_qr_code
        { sessions := [{ id := 1, section_id := 2, session_uuid := "tok",
                         expires_at := 10, is_active := true }],
          qr_scans := [], attendance := [] } ("tok") 5 1 3 7 noFaults =
        (("success", successMsg 7), st1) ∧
      st1.attendance.countP
        (fun r => attKey 5 2 7 r && (r.status == "Present")) = 1 ∧
      redeem_qr_code st1 ("tok") 5 1 4 7 noFaults =
        (("info", alreadyMarkedMsg), st1) :=
  C2_redeem_idempotent
    { sessions := [{ id := 1, section_id := 2, session_uuid := "tok",
                     expires_at := 10, is_active := true }],
      qr_scans := [], attendance := [] } ("tok") 5 1 3 4 7
    { id := 1, section_id := 2, session_uuid := "tok",
      expires_at := 10, is_active := true }
    rfl rfl (by decide) (by decide) rfl (by decide)

/-- Every redemption call is all-or-nothing: the resulting store is either
the original (rollback) or the original with exactly the scan record and
the attendance upsert of the found session applied (commit). -/
theorem redeem_state_cases (st : Store) (uuid : String)
    (student semester now today : Nat) (g : Faults) :
    (redeem_qr_code st uuid student semester now today g).2 = st ∨
    ∃ s, st.sessions.find? (fun x => x.session_uuid == uuid) = some s ∧
      (redeem_qr_code st uuid student semester now today g).2 =
        { st with
          qr_scans := st.qr_scans ++ [{ session_id := s.id, student_id := student }],
          attendance :=
            upsertAttendance st.attendance student s.section_id semester today } := by
  unfold redeem_qr_code
  split
  · exact Or.inl rfl
  · split
    · exact Or.inl rfl
    · next s hfind =>
      split
      · exact Or.inl rfl
      · split
        · exact Or.inl rfl
        · split
          · exact Or.inl rfl
          · split
            · exact Or.inl rfl
            · split
              · exact Or.inl rfl
              · next d st2 heq =>
                refine Or.inr ⟨s, hfind, ?_⟩
                unfold mark_single_student_present at heq
                by_cases hm : g.mark = true
                · rw [if_pos hm] at heq
                  exact absurd heq (by simp)
                · rw [if_neg hm] at heq
                  injection heq with h1 h2
                  exact h2.symm

/-- C1: a redemption call that hits an unexpected store error returns the
error status with one of the two generic failure messages and leaves the
store exactly as it was (full rollback); moreover every redemption call —
faulty or not — is atomic: the store afterwards is either unchanged or
holds both the new scan record and the attendance mark, never one without
the other. -/
theorem C1_store_error_rollback_atomic (st : Store) (uuid : String)
    (student semester now today : Nat) (f : Faults)
    (hf : faultOccurred st uuid student now f = true) :
    ((redeem_qr_code st uuid student semester now today f).1.1 = "error" ∧
     ((redeem_qr_code st uuid student semester now today f).1.2 = genericErrorMsg ∨
      (redeem_qr_code st uuid student semester now today f).1.2 = saveFailedMsg) ∧
     (redeem_qr_code st uuid student semester now today f).2 = st) ∧
    ∀ g : Faults,
      (redeem_qr_code st uuid student semester now today g).2 = st ∨
      ∃ s, st.sessions.find? (fun x => x.session_uuid == uuid) = some s ∧
        (redeem_qr_code st uuid student semester now today g).2 =
          { st with
            qr_scans := st.qr_scans ++ [{ session_id := s.id, student_id := student }],
            attendance :=
              upsertAttendance st.attendance student s.section_id semester today } := by
  refine ⟨?_, fun g => redeem_state_cases st uuid student semester now today g⟩
  by_cases hl : f.lookup = true
  · simp [redeem_qr_code, hl]
  · have hl' : f.lookup = false := by simpa using hl
    unfold faultOccurred at hf
    rw [hl'] at hf
    simp only [Bool.false_or] at hf
    cases hfind : st.sessions.find? (fun x => x.session_uuid == uuid) with
    | none =>
      rw [hfind] at hf
      simp at hf
    | some s =>
      rw [hfind] at hf
      replace hf : (if now > s.expires_at then false
          else if (!s.is_active) = true then false
          else f.scanInsert ||
            (!(st.qr_scans.any fun r =>
              r.session_id == s.id && r.student_id == student)) && f.mark) = true := hf
      by_cases hexp : now > s.expires_at
      · rw [if_pos hexp] at hf
        simp at hf
      · rw [if_neg hexp] at hf
        by_cases hact : (!s.is_active) = true
        · rw [if_pos hact] at hf
          simp at hf
        · rw [if_neg hact] at hf
          by_cases hsi : f.scanInsert = true
          · simp [redeem_qr_code, hl', hfind, hexp, hact, hsi]
          · have hsi' : f.scanInsert = false := by simpa using hsi
            rw [hsi', Bool.false_or] at hf
            rcases (Bool.and_eq_true _ _).mp hf with ⟨hnoscan, hmark⟩
            have hns : (st.qr_scans.any (fun r =>
                r.session_id == s.id && r.student_id == student)) = false := by
              simpa using hnoscan
            simp [redeem_qr_code, hl', hfind, hexp, hact, hsi', hns, hmark,
              mark_single_student_present]

/-- Witness for C1: a fault in the attendance upsert during an otherwise
valid first scan rolls the whole redemption back with the save-failed
error, and the atomicity disjunction holds for every fault combination. -/
theorem C1_store_error_rollback_atomic_witness :
    ((redeem_qr_code
        { sessions := [{ id := 1, section_id := 2, session_uuid := "tok",
                         expires_at := 10, is_active := true }],
          qr_scans := [], attendance := [] } ("tok") 5 1 3 7
        { lookup := false, scanInsert := false, mark := true }).1.1 = "error" ∧
     ((redeem_qr_code
        { sessions := [{ id := 1, section_id := 2, session_uuid := "tok",
                         expires_at := 10, is_active := true }],
          qr_scans := [], attendance := [] } ("tok") 5 1 3 7
        { lookup := false, scanInsert := false, mark := true }).1.2 = genericErrorMsg ∨
      (redeem_qr_code
        { sessions := [{ id := 1, section_id := 2, session_uuid := "tok",
                         expires_at := 10, is_active := true }],
          qr_scans := [], attendance := [] } ("tok") 5 1 3 7
        { lookup := false, scanInsert := false, mark := true }).1.2 = saveFailedMsg) ∧
     (redeem_qr_code
        { sessions := [{ id := 1, section_id := 2, session_uuid := "tok",
                         expires_at := 10, is_active := true }],
          qr_scans := [], attendance := [] } ("tok") 5 1 3 7
        { lookup := false, scanInsert := false, mark := true }).2 =
       { sessions := [{ id := 1, section_id := 2, session_uuid := "tok",
                        expires_at := 10, is_active := true }],
         qr_scans := [], attendance := [] }) ∧
    ∀ g : Faults,
      (redeem_qr_code
        { sessions := [{ id := 1, section_id := 2, session_uuid := "tok",
                         expires_at := 10, is_active := true }],
          qr_scans := [], attendance := [] } ("tok") 5 1 3 7 g).2 =
        { sessions := [{ id := 1, section_id := 2, session_uuid := "tok",
                         expires_at := 10, is_active := true }],
          qr_scans := [], attendance := [] } ∨
      ∃ s, ({ sessions := [{ id := 1, section_id := 2, session_uuid := "tok",
                             expires_at := 10, is_active := true }],
              qr_scans := [], attendance := [] } : Store).sessions.find?
            (fun x => x.session_uuid == "tok") = some s ∧
        (redeem_qr_code
          { sessions := [{ id := 1, section_id := 2, session_uuid := "tok",
                           expires_at := 10, is_active := true }],
            qr_scans := [], attendance := [] } ("tok") 5 1 3 7 g).2 =
          { sessions := [{ id := 1, section_id := 2, session_uuid := "tok",
                           expires_at := 10, is_active := true }],
            qr_scans := [{ session_id := s.id, student_id := 5 }],
            attendance := upsertAttendance [] 5 s.section_id 1 7 } :=
  C1_store_error_rollback_atomic
    { sessions := [{ id := 1, section_id := 2, session_uuid := "tok",
                     expires_at := 10, is_active := true }],
      qr_scans := [], attendance := [] } ("tok") 5 1 3 7
    { lookup := false, scanInsert := false, mark := true } (by decide)

end AttendanceApp
